import Mathlib

/-!
Shallow embedding of the Nextrole job-search pipeline
(`Nextrole/Python/job_search.py` and `Nextrole/Python/scrapers/matcher.py`).

Strings are modelled with Lean `String` (the inputs of interest are ASCII, so
`String.lowerAscii` agrees with Python `str.lower`), Python floats with `ℚ`, and
Python dictionaries for postings / resume data / filters with structures whose
fields carry the defaults that `dict.get` supplies in the source.

The regular-expression searches of the source (`re.search` over the fixed
patterns of `matcher.py`) are embedded as explicit left-to-right scans; for
each fixed pattern the greedy scan agrees with Python's leftmost-match
semantics because no pattern needs backtracking into a quantifier
(every quantified class is disjoint from the token that follows it).
-/

/-! ### Generic string helpers -/

/-- Boolean test that `p` is a prefix of `l` (character lists). -/
def hasPrefixL : List Char → List Char → Bool
  | [], _ => true
  | _ :: _, [] => false
  | p :: ps, c :: cs => p == c && hasPrefixL ps cs

/-- Strip the pattern `p` from the front of `l`, returning the remainder. -/
def stripL : List Char → List Char → Option (List Char)
  | [], l => some l
  | _ :: _, [] => none
  | p :: ps, c :: cs => if p == c then stripL ps cs else none

/-- Does some suffix of the text satisfy the position matcher `p`?
This is the shape of `re.search`: try every start position, left to right. -/
def anySuffix (p : List Char → Bool) : List Char → Bool
  | [] => p []
  | c :: cs => p (c :: cs) || anySuffix p cs

/-- First successful value of the position matcher `p`, scanning start
positions left to right (`re.search` leftmost-match value extraction). -/
def firstMatchNum (p : List Char → Option Nat) : List Char → Option Nat
  | [] => p []
  | c :: cs =>
    match p (c :: cs) with
    | some n => some n
    | none => firstMatchNum p cs

/-- Python's `pat in s` substring test. -/
def containsStr (s pat : String) : Bool :=
  anySuffix (hasPrefixL pat.toList) s.toList

/-- Python's `str.lower` on the ASCII inputs of interest: per-character
lower-casing (spelled on the character list so that proofs can evaluate it). -/
def String.lowerAscii (s : String) : String := ⟨s.data.map Char.toLower⟩

/-- Python's `str.strip`: drop leading and trailing whitespace. -/
def String.stripWs (s : String) : String :=
  ⟨((s.data.dropWhile (·.isWhitespace)).reverse.dropWhile (·.isWhitespace)).reverse⟩

/-- Accumulating worker for `splitWs`. -/
def splitWsAux : List Char → List Char → List String
  | [], acc => if acc.isEmpty then [] else [⟨acc.reverse⟩]
  | c :: cs, acc =>
    if c.isWhitespace then
      if acc.isEmpty then splitWsAux cs [] else ⟨acc.reverse⟩ :: splitWsAux cs []
    else splitWsAux cs (c :: acc)

/-- Python's `s.split()`: split on whitespace runs, dropping empty pieces. -/
def splitWs (s : String) : List String :=
  splitWsAux s.data []

/-- Drop leading whitespace of a character list (regex `\s*`). -/
def dropWsL (l : List Char) : List Char := l.dropWhile (·.isWhitespace)

/-- Numeric value of a digit run (`int(match.group(1))`). -/
def digitsToNat (ds : List Char) : Nat :=
  ds.foldl (fun n c => n * 10 + (c.toNat - '0'.toNat)) 0

/-- Python regex word character `\w` (ASCII view). -/
def isWordChar (c : Char) : Bool := c.isAlphanum || c == '_'

/-! ### Experience requirement extraction (`calculate_experience_match`) -/

/-- Position matcher for `(\d+)\+?\s*years?\s+(?:of\s+)?experience`;
returns the captured leading number. -/
def expPat1 (l : List Char) : Option Nat :=
  let ds := l.takeWhile (·.isDigit)
  let r0 := l.dropWhile (·.isDigit)
  if ds.isEmpty then none else
  let r1 := match r0 with | '+' :: t => t | _ => r0
  let r2 := dropWsL r1
  match stripL "year".toList r2 with
  | none => none
  | some r3 =>
    let r4 := match r3 with | 's' :: t => t | _ => r3
    match r4 with
    | [] => none
    | c :: t =>
      if c.isWhitespace then
        let r5 := dropWsL t
        let r6 := match stripL "of".toList r5 with
          | some ([]) => r5
          | some (c2 :: t2) => if c2.isWhitespace then dropWsL t2 else r5
          | none => r5
        if hasPrefixL "experience".toList r6 then some (digitsToNat ds) else none
      else none

/-- Position matcher for `(\d+)-(\d+)\s*years?\s+(?:of\s+)?experience`;
returns the first captured number. -/
def expPat2 (l : List Char) : Option Nat :=
  let ds := l.takeWhile (·.isDigit)
  let r0 := l.dropWhile (·.isDigit)
  if ds.isEmpty then none else
  match r0 with
  | '-' :: r1 =>
    let ds2 := r1.takeWhile (·.isDigit)
    let r2 := r1.dropWhile (·.isDigit)
    if ds2.isEmpty then none else
    let r3 := dropWsL r2
    match stripL "year".toList r3 with
    | none => none
    | some r4 =>
      let r5 := match r4 with | 's' :: t => t | _ => r4
      match r5 with
      | [] => none
      | c :: t =>
        if c.isWhitespace then
          let r6 := dropWsL t
          let r7 := match stripL "of".toList r6 with
            | some ([]) => r6
            | some (c2 :: t2) => if c2.isWhitespace then dropWsL t2 else r6
            | none => r6
          if hasPrefixL "experience".toList r7 then some (digitsToNat ds) else none
        else none
  | _ => none

/-- Position matcher for `(\d+)\s*to\s*(\d+)\s*years`;
returns the first captured number. -/
def expPat3 (l : List Char) : Option Nat :=
  let ds := l.takeWhile (·.isDigit)
  let r0 := l.dropWhile (·.isDigit)
  if ds.isEmpty then none else
  let r1 := dropWsL r0
  match stripL "to".toList r1 with
  | none => none
  | some r2 =>
    let r3 := dropWsL r2
    let ds2 := r3.takeWhile (·.isDigit)
    let r4 := r3.dropWhile (·.isDigit)
    if ds2.isEmpty then none else
    let r5 := dropWsL r4
    if hasPrefixL "years".toList r5 then some (digitsToNat ds) else none

/-- The `for pattern in exp_patterns: re.search(...)` loop: first pattern that
matches anywhere in the (lower-cased) text yields its group(1) value. -/
def requiredYearsFromText (jl : List Char) : Option Nat :=
  match firstMatchNum expPat1 jl with
  | some n => some n
  | none =>
    match firstMatchNum expPat2 jl with
    | some n => some n
    | none => firstMatchNum expPat3 jl

/-- Seniority-word inference used when no numeric pattern matches. -/
def inferFromTitle (jl : String) : Nat :=
  if containsStr jl "principal" || containsStr jl "staff" then 8
  else if containsStr jl "senior" || containsStr jl "sr." then 5
  else if containsStr jl "lead" then 6
  else if containsStr jl "junior" || containsStr jl "entry" then 0
  else 3

/-- Required years derived from a posting text: numeric extraction first,
title inference otherwise (the text is lower-cased as in the source). -/
def requiredYears (job_text : String) : Nat :=
  let jl := job_text.lowerAscii
  match requiredYearsFromText jl.toList with
  | some n => n
  | none => inferFromTitle jl

/-- `calculate_experience_match` from `matcher.py` (lines 255-317). -/
def calculate_experience_match (resume_years : Nat) (job_text : String) : ℚ :=
  let ry := if resume_years = 0 then 3 else resume_years
  let req := requiredYears job_text
  if ry ≥ req then
    let overage := ry - req
    if overage > 7 then 75/100
    else if overage > 4 then 85/100
    else 1
  else
    let gap := req - ry
    if gap ≤ 1 then 85/100
    else if gap ≤ 2 then 65/100
    else if gap ≤ 3 then 45/100
    else 25/100

/-! ### Location match (`calculate_location_match`) -/

/-- Country token list from `matcher.py` line 346. -/
def countriesList : List String :=
  ["usa", "us", "united states", "uk", "canada", "japan", "germany", "australia"]

/-- First `\b([A-Z]{2})\b` match in a string (the two captured characters),
scanning left to right with word-boundary checks on both sides. -/
def stateCodeAux : Option Char → List Char → Option (Char × Char)
  | prev, a :: b :: rest =>
    if (match prev with | none => true | some p => !isWordChar p)
        && a.isUpper && b.isUpper
        && (match rest with | [] => true | c :: _ => !isWordChar c) then
      some (a, b)
    else
      stateCodeAux (some a) (b :: rest)
  | _, _ => none

/-- `re.search(r'\b([A-Z]{2})\b', s)` capture, on the original-case string. -/
def stateCode (s : String) : Option (Char × Char) :=
  stateCodeAux none s.toList

/-- `calculate_location_match` from `matcher.py` (lines 320-357). -/
def calculate_location_match (resume_location job_location : String) : ℚ :=
  if job_location = "" then 7/10
  else
    let jl := job_location.lowerAscii
    if containsStr jl "remote" then 1
    else if resume_location = "" then 1/2
    else
      let rl := resume_location.lowerAscii
      if containsStr jl rl || containsStr rl jl then 1
      else if countriesList.any (fun c => containsStr rl c && containsStr jl c) then 8/10
      else
        match stateCode resume_location, stateCode job_location with
        | some a, some b => if a = b then 85/100 else 3/10
        | _, _ => 3/10

/-! ### Skill normalization and technical-skills score -/

/-- `SKILL_SYNONYMS` dictionary from `matcher.py` lines 20-39, in
insertion order. -/
def SKILL_SYNONYMS : List (String × List String) :=
  [("javascript", ["js", "ecmascript", "node", "nodejs", "node.js"]),
   ("typescript", ["ts"]),
   ("python", ["py"]),
   ("objective-c", ["objective c", "objc"]),
   ("c++", ["cpp", "cplusplus"]),
   ("c#", ["csharp"]),
   ("swiftui", ["swift ui"]),
   ("uikit", ["ui kit"]),
   ("react", ["reactjs", "react.js"]),
   ("vue", ["vuejs", "vue.js"]),
   ("angular", ["angularjs", "angular.js"]),
   ("graphql", ["graph ql"]),
   ("postgresql", ["postgres", "psql"]),
   ("mongodb", ["mongo"]),
   ("kubernetes", ["k8s"]),
   ("amazon web services", ["aws"]),
   ("google cloud platform", ["gcp"]),
   ("continuous integration", ["ci/cd", "ci cd"])]

/-- `ARCHITECTURE_KEYWORDS` from `matcher.py` lines 42-49. -/
def ARCHITECTURE_KEYWORDS : List String :=
  ["clean architecture", "mvvm", "mvc", "viper", "vip",
   "solid", "design patterns", "dependency injection",
   "modular", "modularization", "microservices",
   "tdd", "test driven", "unit test", "xctest", "xctestcase",
   "code review", "pull request", "pr review",
   "refactor", "technical debt", "best practices"]

/-- `COLLABORATION_KEYWORDS` from `matcher.py` lines 52-58. -/
def COLLABORATION_KEYWORDS : List String :=
  ["cross-functional", "cross functional", "collaborate", "collaboration",
   "partner", "stakeholder", "product manager", "designer",
   "mentor", "mentoring", "lead", "leadership", "team",
   "agile", "scrum", "sprint", "standup",
   "communicate", "communication", "presentation"]

/-- Tech terms scanned by `extract_job_requirements` (lines 149-158). -/
def techTermsList : List String :=
  ["swift", "objective-c", "swiftui", "uikit", "combine", "rxswift",
   "graphql", "rest", "api", "websocket",
   "python", "javascript", "typescript", "java", "kotlin", "go", "rust",
   "react", "vue", "angular", "django", "flask", "spring",
   "aws", "azure", "gcp", "docker", "kubernetes",
   "postgresql", "mongodb", "redis", "mysql", "sqlite",
   "git", "ci/cd", "jenkins", "github actions",
   "agile", "scrum", "jira"]

/-- `normalize_skill` (lines 70-78): lower-case, strip, fold through the
synonym table in insertion order. -/
def normalize_skill (skill : String) : String :=
  let sl := skill.lowerAscii.stripWs
  match SKILL_SYNONYMS.find? (fun p => p.2.contains sl || p.1 == sl) with
  | some p => p.1
  | none => sl

/-- `get_skill_set` (lines 81-83): the Python set of normalized skills,
modelled as a first-occurrence-deduplicated list (only size and membership
of the set are consumed downstream). -/
def get_skill_set (skills : List String) : List String :=
  (skills.map normalize_skill).dedup

/-- `extract_job_requirements` (lines 144-165): tech terms occurring as
substrings of the lower-cased job text, in table order. -/
def extract_job_requirements (job_text : String) : List String :=
  let jl := job_text.lowerAscii
  techTermsList.filter (fun t => containsStr jl t)

/-- Length of a longest common subsequence of two character lists. -/
def lcsLen : List Char → List Char → Nat
  | [], _ => 0
  | _ :: _, [] => 0
  | a :: as, b :: bs =>
    if a = b then lcsLen as bs + 1
    else max (lcsLen (a :: as) bs) (lcsLen as (b :: bs))
  termination_by a b => a.length + b.length

/-- Modelled from the spec: the fuzzy token-similarity percentage of the
external `fuzzywuzzy` library (`fuzz.ratio`, not part of this repository);
the spec only requires a similarity percentage compared against 85. It is
modelled as the classic sequence-matcher ratio `200 * lcs / (|a| + |b|)`. -/
def fuzzRatio (a b : String) : Nat :=
  let la := a.length
  let lb := b.length
  if la + lb = 0 then 100
  else 200 * lcsLen a.toList b.toList / (la + lb)

/-! ### Scale/impact indicator regexes (`SCALE_INDICATORS`, lines 61-67) -/

/-- Position matcher for `\d+[km]?\+?\s*users`. -/
def scaleUsersPat (l : List Char) : Bool :=
  let ds := l.takeWhile (·.isDigit)
  let r0 := l.dropWhile (·.isDigit)
  if ds.isEmpty then false else
  let r1 := match r0 with | 'k' :: t => t | 'm' :: t => t | _ => r0
  let r2 := match r1 with | '+' :: t => t | _ => r1
  hasPrefixL "users".toList (dropWsL r2)

/-- Position matcher for `\d+%\s*(improvement|reduction|increase|decrease)`. -/
def scalePctPat (l : List Char) : Bool :=
  let ds := l.takeWhile (·.isDigit)
  let r0 := l.dropWhile (·.isDigit)
  if ds.isEmpty then false else
  match r0 with
  | '%' :: r1 =>
    let r2 := dropWsL r1
    hasPrefixL "improvement".toList r2 || hasPrefixL "reduction".toList r2 ||
      hasPrefixL "increase".toList r2 || hasPrefixL "decrease".toList r2
  | _ => false

/-- Position matcher for
`(millions?|thousands?)\s*(of\s+)?(users|customers|downloads)`. -/
def scaleMillionsPat (l : List Char) : Bool :=
  let head := match stripL "million".toList l with
    | some r => some r
    | none => stripL "thousand".toList l
  match head with
  | none => false
  | some r0 =>
    let r1 := match r0 with | 's' :: t => t | _ => r0
    let r2 := dropWsL r1
    let r3 := match stripL "of".toList r2 with
      | some ([]) => r2
      | some (c :: t) => if c.isWhitespace then dropWsL t else r2
      | none => r2
    hasPrefixL "users".toList r3 || hasPrefixL "customers".toList r3 ||
      hasPrefixL "downloads".toList r3

/-- Position matcher for `a.?b`-shaped patterns (`high.?traffic`,
`large.?scale`): the literal head, at most one non-newline character,
then the literal tail. -/
def dotOptPat (hd tl : String) (l : List Char) : Bool :=
  match stripL hd.toList l with
  | none => false
  | some r =>
    hasPrefixL tl.toList r ||
      (match r with
       | c :: t => c ≠ '\n' && hasPrefixL tl.toList t
       | [] => false)

/-- Position matcher for `performance\s+optimi[sz]`. -/
def scalePerfPat (l : List Char) : Bool :=
  match stripL "performance".toList l with
  | none => false
  | some r =>
    match r with
    | c :: t =>
      c.isWhitespace &&
        (match stripL "optimi".toList (dropWsL t) with
         | some ('s' :: _) => true
         | some ('z' :: _) => true
         | _ => false)
    | [] => false

/-- Position matcher for `crash\s+rate`. -/
def scaleCrashPat (l : List Char) : Bool :=
  match stripL "crash".toList l with
  | none => false
  | some r =>
    match r with
    | c :: t => c.isWhitespace && hasPrefixL "rate".toList (dropWsL t)
    | [] => false

/-- Number of `SCALE_INDICATORS` patterns that match somewhere in the
(lower-cased) resume text. -/
def scaleIndicatorHits (t : String) : Nat :=
  let l := t.toList
  [anySuffix scaleUsersPat l,
   anySuffix scalePctPat l,
   anySuffix scaleMillionsPat l,
   anySuffix (dotOptPat "high" "traffic") l,
   anySuffix (dotOptPat "large" "scale") l,
   containsStr t "enterprise",
   anySuffix scalePerfPat l,
   anySuffix scaleCrashPat l].count true

/-- `calculate_technical_skills_score` from `matcher.py` (lines 86-141). -/
def calculate_technical_skills_score
    (resume_skills : List String) (resume_text job_text : String) : ℚ :=
  if resume_skills = [] then 3/10
  else
    let rset := get_skill_set resume_skills
    let jl := job_text.lowerAscii
    let rl := resume_text.lowerAscii
    let forward_matches : Nat := rset.countP (fun skill =>
      containsStr jl skill ||
        (splitWs jl).any (fun w => w.length > 3 && fuzzRatio skill w > 85))
    let forward_ratio : ℚ :=
      if rset = [] then 0 else (forward_matches : ℚ) / (rset.length : ℚ)
    let reqs := extract_job_requirements jl
    let reverse_matches : ℚ := reqs.foldl (fun acc req =>
      if rset.contains (normalize_skill req) then acc + 1
      else if containsStr rl req.lowerAscii then acc + 7/10
      else acc) 0
    let reverse_ratio : ℚ :=
      if reqs = [] then 1/2 else reverse_matches / (reqs.length : ℚ)
    let depth_bonus : ℚ := min ((scaleIndicatorHits rl : ℚ) * (5/100)) (15/100)
    let score := forward_ratio * (1/2) + reverse_ratio * (4/10) + depth_bonus
    min 1 (max 0 score)

/-- `calculate_architecture_quality_score` from `matcher.py`
(lines 168-209). -/
def calculate_architecture_quality_score (resume_text job_text : String) : ℚ :=
  let rl := resume_text.lowerAscii
  let jl := job_text.lowerAscii
  let resume_arch_count := ARCHITECTURE_KEYWORDS.countP (fun k => containsStr rl k)
  let job_arch_count := ARCHITECTURE_KEYWORDS.countP (fun k => containsStr jl k)
  let matchCount := ARCHITECTURE_KEYWORDS.countP
    (fun k => containsStr rl k && containsStr jl k)
  let coverage : ℚ :=
    if job_arch_count > 0 then (matchCount : ℚ) / (job_arch_count : ℚ)
    else min ((resume_arch_count : ℚ) / 5) 1 * (7/10) + 3/10
  let arch_bonus : ℚ := min ((resume_arch_count : ℚ) / 8) (2/10)
  min 1 (coverage + arch_bonus)

/-- `calculate_collaboration_score` from `matcher.py` (lines 212-252). -/
def calculate_collaboration_score (resume_text job_text : String) : ℚ :=
  let rl := resume_text.lowerAscii
  let jl := job_text.lowerAscii
  let resume_collab_count := COLLABORATION_KEYWORDS.countP (fun k => containsStr rl k)
  let job_collab_count := COLLABORATION_KEYWORDS.countP (fun k => containsStr jl k)
  let matchCount := COLLABORATION_KEYWORDS.countP
    (fun k => containsStr rl k && containsStr jl k)
  let coverage : ℚ :=
    if job_collab_count > 0 then (matchCount : ℚ) / (job_collab_count : ℚ)
    else 6/10
  let collab_bonus : ℚ := min ((resume_collab_count : ℚ) / 6) (15/100)
  min 1 (coverage + collab_bonus)

/-! ### Data model -/

/-- A job posting dictionary, with the defaults `dict.get` supplies in the
source (`''` for text fields, absent/`None` for company size and visa flag,
`0.0` for the match score). -/
structure Posting where
  title : String := ""
  company : String := ""
  location : String := ""
  description : String := ""
  url : String := ""
  companySize : Option String := none
  visaSponsorship : Option Bool := none
  matchScore : ℚ := 0
deriving DecidableEq, Repr

/-- Parsed resume data consumed by `calculate_match_breakdown`
(`resume_data.get(...)` fields with their defaults). -/
structure ResumeData where
  skills : List String := []
  text : String := ""
  location : String := ""
  yearsExperience : Nat := 0
  keywords : List String := []
deriving DecidableEq, Repr

/-- The breakdown dictionary returned by `calculate_match_breakdown`
(lines 427-439), field names as in the source. -/
structure ScoreBreakdown where
  totalScore : ℚ
  skillsScore : ℚ
  skillsWeight : ℚ
  keywordsScore : ℚ
  keywordsWeight : ℚ
  experienceScore : ℚ
  experienceWeight : ℚ
  locationScore : ℚ
  locationWeight : ℚ
  titleScore : ℚ
  titleWeight : ℚ
deriving DecidableEq, Repr

/-- `calculate_match_breakdown` from `matcher.py` (lines 371-439). -/
def calculate_match_breakdown (resume_data : ResumeData) (job : Posting) :
    ScoreBreakdown :=
  let resume_skills := resume_data.skills
  let resume_text0 := resume_data.text
  let resume_location := resume_data.location
  let resume_years := resume_data.yearsExperience
  let job_text := job.title ++ " " ++ job.description
  let job_location := job.location
  let resume_text :=
    if resume_text0 = "" then
      String.intercalate " " (resume_skills ++ resume_data.keywords)
    else resume_text0
  let skills_score := calculate_technical_skills_score resume_skills resume_text job_text
  let architecture_score := calculate_architecture_quality_score resume_text job_text
  let collaboration_score := calculate_collaboration_score resume_text job_text
  let experience_score := calculate_experience_match resume_years job_text
  let location_score := calculate_location_match resume_location job_location
  let total_score :=
    skills_score * (40/100) +
    architecture_score * (20/100) +
    collaboration_score * (15/100) +
    experience_score * (15/100) +
    location_score * (10/100)
  { totalScore := max 0 (min 1 total_score)
    skillsScore := skills_score
    skillsWeight := 40/100
    keywordsScore := architecture_score
    keywordsWeight := 20/100
    experienceScore := experience_score
    experienceWeight := 15/100
    locationScore := location_score
    locationWeight := 10/100
    titleScore := collaboration_score
    titleWeight := 15/100 }

/-- `calculate_match_score` (lines 360-368). -/
def calculate_match_score (resume_data : ResumeData) (job : Posting) : ℚ :=
  (calculate_match_breakdown resume_data job).totalScore

/-! ### Deduplication (`deduplicate_jobs`, `job_search.py` lines 132-150) -/

/-- The `(title.lower(), company.lower())` identity pair of a posting. -/
def tcKey (j : Posting) : String × String :=
  (j.title.lowerAscii, j.company.lowerAscii)

/-- The loop body of `deduplicate_jobs` with explicit `seen_urls` /
`seen_title_company` state: keep a posting when its URL is non-empty and
unseen (marking both keys seen), otherwise keep it when its title/company
pair is unseen (marking only that pair seen). -/
def dedupeAux : List Posting → List String → List (String × String) → List Posting
  | [], _, _ => []
  | j :: rest, seenUrls, seenTC =>
    if j.url ≠ "" ∧ j.url ∉ seenUrls then
      j :: dedupeAux rest (j.url :: seenUrls) (tcKey j :: seenTC)
    else if tcKey j ∉ seenTC then
      j :: dedupeAux rest seenUrls (tcKey j :: seenTC)
    else
      dedupeAux rest seenUrls seenTC

/-- `deduplicate_jobs` from `job_search.py`. -/
def deduplicate_jobs (jobs : List Posting) : List Posting :=
  dedupeAux jobs [] []

/-! ### FilterChain (`apply_filters`, `job_search.py` lines 153-181) -/

/-- Search filters consumed by `apply_filters`, with the defaults the
source supplies through `filters.get`. -/
structure Filters where
  minimumMatchScore : ℚ := 1/2
  techStack : List String := []
  visaSponsorship : Bool := false
  companyTypes : List String := []
deriving Repr

/-- The company-size predicate of the filter chain:
`j.get('companySize') in company_types or not j.get('companySize')`
(a missing/`None` size and the empty string are both falsy). -/
def keepBySize (classes : List String) (j : Posting) : Bool :=
  match j.companySize with
  | none => true
  | some s => classes.contains s || s == ""

/-- The company-size stage of `apply_filters` (lines 174-179), including the
`if company_types and company_types != []` guard that skips the stage for an
empty criteria set. -/
def applySizeFilter (classes : List String) (jobs : List Posting) : List Posting :=
  if classes = [] then jobs else jobs.filter (keepBySize classes)

/-- `apply_filters` from `job_search.py`: minimum score, tech stack,
visa sponsorship, then company size. -/
def apply_filters (jobs : List Posting) (filters : Filters) : List Posting :=
  let f1 := jobs.filter (fun j => filters.minimumMatchScore ≤ j.matchScore)
  let f2 :=
    if filters.techStack = [] then f1
    else f1.filter (fun j =>
      filters.techStack.any (fun t => containsStr j.description.lowerAscii t.lowerAscii))
  let f3 :=
    if filters.visaSponsorship then f2.filter (fun j => j.visaSponsorship = some true)
    else f2
  applySizeFilter filters.companyTypes f3

/-! ### Orchestrator result collection (`search_all_boards` lines 67-84) -/

/-- Outcome of one scraper task, in `as_completed` order: the adapter's
source name paired with either its posting list or the raised error text. -/
def okEntry (p : String × List Posting) : String × Except String (List Posting) :=
  (p.1, Except.ok p.2)

/-- The `for future in as_completed(...)` loop: a successful task extends
`all_jobs`, a failing task appends `"<source>: <message>"` to `errors`;
order of both lists follows completion order. -/
def collectResults :
    List (String × Except String (List Posting)) → List Posting × List String
  | [] => ([], [])
  | (_, Except.ok js) :: rest =>
    let r := collectResults rest
    (js ++ r.1, r.2)
  | (name, Except.error msg) :: rest =>
    let r := collectResults rest
    (r.1, (name ++ ": " ++ msg) :: r.2)

/-! ### Progress reporting (`search_all_boards` lines 47-101, `run_scraper`
line 119, `log_progress`) -/

/-- Fraction logged by `run_scraper` on dispatch:
`log_progress(f"Searching {source_name}...", 0.0)`. -/
def dispatchProgress : ℚ := 0

/-- Fractions emitted by the completion loop: the k-th completed task (out of
`n`) logs `0.2 + (completed / total) * 0.6` on success and `0.0` on error. -/
def loopEmissions (n : Nat) : Nat → List (Except String (List Posting)) → List ℚ
  | _, [] => []
  | k, o :: rest =>
    (match o with
     | Except.ok _ => 2/10 + (((k + 1 : Nat) : ℚ) / (n : ℚ)) * (6/10)
     | Except.error _ => 0) :: loopEmissions n (k + 1) rest

/-- The deterministic sequence of progress fractions emitted by the
orchestrator thread in one run, given the task outcomes in completion order:
the completion-loop emissions followed by the fixed checkpoints
0.85 (scoring), 0.90 (deduplication) and 0.95 (filtering). -/
def progressTrace (outcomes : List (Except String (List Posting))) : List ℚ :=
  loopEmissions outcomes.length 0 outcomes ++ [85/100, 90/100, 95/100]

/-! ### Process entry point (`main`, `job_search.py` lines 190-216) -/

/-- The two-field response envelope `{"jobs": [...], "errors": [...]}`. -/
structure SearchResponse where
  jobs : List Posting
  errors : List String
deriving DecidableEq, Repr

/-- Python string formatting of the `action` value inside
`f"Unknown action: {action}"` (`None` prints as `None`). -/
def actionText : Option String → String
  | some a => a
  | none => "None"

/-- `main` after the input JSON has been parsed: dispatch on the `action`
field. The `search` branch runs the pipeline (its outcome, successful or
raised, is abstracted as the `searchRun` argument, whose error text stands
for `str(e)` plus the traceback); any other action produces the
unknown-action envelope. The second component is the process exit status:
`sys.exit(1)` happens only in the exception handler. -/
def pyMain (action : Option String) (searchRun : Except String SearchResponse) :
    SearchResponse × Nat :=
  if action = some "search" then
    match searchRun with
    | Except.ok r => (r, 0)
    | Except.error e => (⟨[], [e]⟩, 1)
  else
    (⟨[], ["Unknown action: " ++ actionText action]⟩, 0)

/-! ### Definitions following the spec text (for refinement claims) -/

/-- The experience table exactly as the claim words it, applied to the
literal candidate years (no zero-years substitution): meeting or exceeding
the requirement scores 1.0 with surplus at most 4, 0.85 with surplus above 4,
0.75 above 7; short by a gap of at most 1 scores 0.85, at most 2 scores 0.65,
at most 3 scores 0.45, else 0.25. -/
def expSpecTable (years req : Nat) : ℚ :=
  if years ≥ req then
    if years - req > 7 then 75/100
    else if years - req > 4 then 85/100
    else 1
  else
    if req - years ≤ 1 then 85/100
    else if req - years ≤ 2 then 65/100
    else if req - years ≤ 3 then 45/100
    else 25/100

/-- The location cascade exactly as the claim words it: remote first, then
empty posting location 0.7, empty candidate location 0.5, substring match
1.0, shared country token 0.8, shared two-letter region code 0.85,
otherwise 0.3. -/
def locationSpecScore (resume_location job_location : String) : ℚ :=
  if containsStr job_location.lowerAscii "remote" then 1
  else if job_location = "" then 7/10
  else if resume_location = "" then 1/2
  else
    let jl := job_location.lowerAscii
    let rl := resume_location.lowerAscii
    if containsStr jl rl || containsStr rl jl then 1
    else if countriesList.any (fun c => containsStr rl c && containsStr jl c) then 8/10
    else
      match stateCode resume_location, stateCode job_location with
      | some a, some b => if a = b then 85/100 else 3/10
      | _, _ => 3/10

/-- The claim's company-size acceptance condition: the posting's size class
is in the requested set, or the posting carries no size classification
(no value, or the empty classification). -/
def sizeAllowed (classes : List String) (j : Posting) : Prop :=
  match j.companySize with
  | none => True
  | some s => s ∈ classes ∨ s = ""

/-- Success test for a task outcome (Python: no exception raised). -/
def isOkResult : Except String (List Posting) → Bool
  | Except.ok _ => true
  | Except.error _ => false

/-! ## Theorems -/

/-- C9: for every posting text, a candidate reporting 0 years of experience
receives exactly the experience sub-score of a candidate with 3 years:
`calculate_experience_match` substitutes 3 for a reported 0 before comparing
against the posting's requirement. -/
theorem experience_zero_scored_as_three (t : String) :
    calculate_experience_match 0 t = calculate_experience_match 3 t := rfl

/-- C10: for every parsed request envelope whose action is not `"search"`,
`main` writes the two-field response with an empty jobs list and the single
error entry `"Unknown action: <action>"`, and the process exits with
status 0. -/
theorem unknown_action_response (action : Option String)
    (searchRun : Except String SearchResponse) (h : action ≠ some "search") :
    pyMain action searchRun =
      (⟨[], ["Unknown action: " ++ actionText action]⟩, 0) := by
  unfold pyMain
  rw [if_neg h]

/-- Witness for C10 at the concrete action `"export"`. -/
theorem unknown_action_response_witness :
    pyMain (some "export") (Except.ok ⟨[], []⟩) =
      (⟨[], ["Unknown action: export"]⟩, 0) :=
  unknown_action_response (some "export") (Except.ok ⟨[], []⟩) (by decide)

/-- C4 fails as stated at a candidate with 0 years: against
`"4+ years of experience"` (required years 4, gap 4) the claimed table gives
0.25, while the code substitutes 3 years first and returns 0.85. -/
theorem experience_table_zero_years_counterexample :
    requiredYears "4+ years of experience" = 4 ∧
      calculate_experience_match 0 "4+ years of experience" = 85/100 ∧
      expSpecTable 0 (requiredYears "4+ years of experience") = 25/100 ∧
      (85/100 : ℚ) ≠ 25/100 := by
  refine ⟨by decide, rfl, rfl, by norm_num⟩

/-- C4 (amended): for every candidate with a nonzero years-of-experience
value and every posting text, the experience sub-score follows the
extracted-or-inferred requirement table exactly as claimed; a reported value
of 0 is first replaced by 3, so the table applies to the substituted value
rather than to 0 itself. -/
theorem experience_table_for_nonzero_years (years : Nat) (t : String)
    (h : years ≠ 0) :
    calculate_experience_match years t = expSpecTable years (requiredYears t) := by
  simp only [calculate_experience_match, expSpecTable, if_neg h]

/-- Witness for the amended C4: the spec's own example, a candidate with
5 years against `"3+ years experience"`. -/
theorem experience_table_for_nonzero_years_witness :
    calculate_experience_match 5 "3+ years experience" =
      expSpecTable 5 (requiredYears "3+ years experience") :=
  experience_table_for_nonzero_years 5 "3+ years experience" (by decide)

/-- C6: `calculate_location_match` realizes exactly the claimed cascade:
a posting location whose lower-cased text contains "remote" scores 1.0 for
every candidate location; otherwise an empty posting location scores 0.7, a
non-empty posting location with an empty candidate location 0.5, a substring
match in either direction 1.0, a shared country token 0.8, a shared
two-letter region code 0.85, and any other pair 0.3. -/
theorem location_match_follows_claimed_cascade (r j : String) :
    calculate_location_match r j = locationSpecScore r j := by
  by_cases h : j = ""
  · subst h; rfl
  · unfold calculate_location_match locationSpecScore
    by_cases hr : containsStr j.lowerAscii "remote"
    · simp [h, hr]
    · simp [h, hr]

/-- C5: under the company-size stage of the filter chain with a non-empty
requested class set, a posting survives the stage iff it was in the input and
its size class is in the requested set or it carries no size classification
(absent/falsy value). Instantiating the class set to `["startup"]` gives the
claim's two instances: a posting with no `companySize` is retained, one with
`companySize = "enterprise"` is dropped. -/
theorem size_filter_keeps_iff (c : String) (cs : List String)
    (jobs : List Posting) (p : Posting) :
    p ∈ applySizeFilter (c :: cs) jobs ↔ p ∈ jobs ∧ sizeAllowed (c :: cs) p := by
  unfold applySizeFilter
  rw [if_neg (by simp)]
  rw [List.mem_filter]
  unfold keepBySize sizeAllowed
  cases p.companySize with
  | none => simp
  | some s => simp

/-- C1: for every candidate profile and every posting, the total score in
the breakdown returned by `calculate_match_breakdown` lies in the closed
interval `[0, 1]` (the weighted sum is clamped), and the five fixed
sub-score weights carried in the breakdown (0.40 skills, 0.20 architecture,
0.15 collaboration, 0.15 experience, 0.10 location) sum to exactly 1. -/
theorem match_breakdown_total_in_unit_and_weights_sum_one
    (resume_data : ResumeData) (job : Posting) :
    (0 ≤ (calculate_match_breakdown resume_data job).totalScore ∧
        (calculate_match_breakdown resume_data job).totalScore ≤ 1) ∧
      (calculate_match_breakdown resume_data job).skillsWeight +
          (calculate_match_breakdown resume_data job).keywordsWeight +
          (calculate_match_breakdown resume_data job).titleWeight +
          (calculate_match_breakdown resume_data job).experienceWeight +
          (calculate_match_breakdown resume_data job).locationWeight = 1 := by
  refine ⟨⟨le_max_left 0 _, max_le (by norm_num) (min_le_left 1 _)⟩, ?_⟩
  show (40/100 : ℚ) + 20/100 + 15/100 + 15/100 + 10/100 = 1
  norm_num

/-- C2 is false as stated: two postings carrying the identical non-empty URL
`"u"` but different titles both survive `deduplicate_jobs` (the second one is
admitted by the title/company rule because its pair is unseen). -/
theorem dedupe_identical_url_counterexample :
    deduplicate_jobs
        [{url := "u", title := "A", company := "X"},
         {url := "u", title := "B", company := "X"}] =
      [{url := "u", title := "A", company := "X"},
       {url := "u", title := "B", company := "X"}] ∧
      ({url := "u", title := "A", company := "X"} : Posting).url =
        ({url := "u", title := "B", company := "X"} : Posting).url ∧
      ({url := "u", title := "A", company := "X"} : Posting).url ≠ "" := by
  refine ⟨by decide, rfl, by decide⟩

/-- Every posting emitted by `dedupeAux` whose title/company key was already
in the seen set must have been admitted through the URL branch, hence carries
a non-empty URL outside the URL seen set. -/
theorem dedupeAux_tc_seen_url_fresh {l : List Posting} {su : List String}
    {st : List (String × String)} {b : Posting}
    (hb : b ∈ dedupeAux l su st) (htc : tcKey b ∈ st) :
    b.url ≠ "" ∧ b.url ∉ su := by
  induction l generalizing su st with
  | nil => simp [dedupeAux] at hb
  | cons j rest ih =>
    by_cases h1 : j.url ≠ "" ∧ j.url ∉ su
    · rw [dedupeAux, if_pos h1] at hb
      rcases List.mem_cons.mp hb with rfl | hb'
      · exact h1
      · have h := ih hb' (List.mem_cons_of_mem _ htc)
        exact ⟨h.1, fun hsu => h.2 (List.mem_cons_of_mem _ hsu)⟩
    · rw [dedupeAux, if_neg h1] at hb
      by_cases h2 : tcKey j ∉ st
      · rw [if_pos h2] at hb
        rcases List.mem_cons.mp hb with rfl | hb'
        · exact absurd htc h2
        · exact ih hb' (List.mem_cons_of_mem _ htc)
      · rw [if_neg h2] at hb
        exact ih hb htc

/-- No two postings emitted by `dedupeAux` agree on both identity keys. -/
theorem dedupeAux_pairwise (l : List Posting) (su : List String)
    (st : List (String × String)) :
    (dedupeAux l su st).Pairwise
      (fun a b => ¬(a.url = b.url ∧ tcKey a = tcKey b)) := by
  induction l generalizing su st with
  | nil => simp [dedupeAux]
  | cons j rest ih =>
    by_cases h1 : j.url ≠ "" ∧ j.url ∉ su
    · rw [dedupeAux, if_pos h1]
      refine List.Pairwise.cons ?_ (ih _ _)
      rintro b hb ⟨hurl, htc⟩
      have hmem : tcKey b ∈ tcKey j :: st := by
        rw [← htc]; exact List.mem_cons_self _ _
      have hB := dedupeAux_tc_seen_url_fresh hb hmem
      exact hB.2 (by rw [← hurl]; exact List.mem_cons_self _ _)
    · rw [dedupeAux, if_neg h1]
      by_cases h2 : tcKey j ∉ st
      · rw [if_pos h2]
        refine List.Pairwise.cons ?_ (ih _ _)
        rintro b hb ⟨hurl, htc⟩
        have hmem : tcKey b ∈ tcKey j :: st := by
          rw [← htc]; exact List.mem_cons_self _ _
        have hB := dedupeAux_tc_seen_url_fresh hb hmem
        push_neg at h1
        by_cases hje : j.url = ""
        · exact hB.1 (by rw [← hurl, hje])
        · exact hB.2 (by rw [← hurl]; exact h1 hje)
      · rw [if_neg h2]
        exact ih _ _

/-- C2 (amended): the output of `deduplicate_jobs` never contains two
postings with identical non-empty URLs *and* identical lower-cased
(title, company) pairs, and never two postings that both have empty URLs and
identical lower-cased (title, company) pairs. (Two postings with identical
non-empty URLs but different title/company pairs can both survive.) -/
theorem dedupe_no_full_key_collision (jobs : List Posting) :
    (deduplicate_jobs jobs).Pairwise (fun a b =>
      ¬(a.url ≠ "" ∧ b.url ≠ "" ∧ a.url = b.url ∧ tcKey a = tcKey b) ∧
      ¬(a.url = "" ∧ b.url = "" ∧ tcKey a = tcKey b)) := by
  have h := dedupeAux_pairwise jobs [] []
  refine h.imp ?_
  intro a b hab
  constructor
  · rintro ⟨_, _, hu, ht⟩
    exact hab ⟨hu, ht⟩
  · rintro ⟨ha, hb, ht⟩
    exact hab ⟨ha.trans hb.symm, ht⟩

/-- Each step of `dedupeAux` emits at most one posting per input posting. -/
theorem dedupeAux_length_le (l : List Posting) (su : List String)
    (st : List (String × String)) :
    (dedupeAux l su st).length ≤ l.length := by
  induction l generalizing su st with
  | nil => simp [dedupeAux]
  | cons j rest ih =>
    by_cases h1 : j.url ≠ "" ∧ j.url ∉ su
    · rw [dedupeAux, if_pos h1]
      simpa using ih _ _
    · rw [dedupeAux, if_neg h1]
      by_cases h2 : tcKey j ∉ st
      · rw [if_pos h2]
        simpa using ih _ _
      · rw [if_neg h2]
        exact (ih _ _).trans (Nat.le_succ _)

/-- Re-running `dedupeAux` on its own output, from the same seen sets,
changes nothing: every kept posting takes the same branch again. -/
theorem dedupeAux_idem (l : List Posting) (su : List String)
    (st : List (String × String)) :
    dedupeAux (dedupeAux l su st) su st = dedupeAux l su st := by
  induction l generalizing su st with
  | nil => simp [dedupeAux]
  | cons j rest ih =>
    by_cases h1 : j.url ≠ "" ∧ j.url ∉ su
    · rw [dedupeAux, if_pos h1, dedupeAux, if_pos h1, ih]
    · rw [dedupeAux, if_neg h1]
      by_cases h2 : tcKey j ∉ st
      · rw [if_pos h2, dedupeAux, if_neg h1, if_pos h2, ih]
      · rw [if_neg h2, ih]

/-- C7: deduplication is idempotent and non-expanding: applying
`deduplicate_jobs` twice equals applying it once, and the output is never
longer than the input. -/
theorem dedupe_idempotent_and_nonexpanding (x : List Posting) :
    deduplicate_jobs (deduplicate_jobs x) = deduplicate_jobs x ∧
      (deduplicate_jobs x).length ≤ x.length :=
  ⟨dedupeAux_idem x [] [], dedupeAux_length_le x [] []⟩

/-- Tasks that all succeed contribute exactly their concatenated postings
and no error entry. -/
theorem collectResults_all_ok (l : List (String × List Posting)) :
    collectResults (l.map okEntry) = ((l.map Prod.snd).flatten, []) := by
  induction l with
  | nil => rfl
  | cons p rest ih =>
    simp [collectResults, okEntry, ih]

/-- C3: for a run in which exactly one adapter fails on every call (outcome
`Except.error msg` under source `name`) and all other adapters succeed, the
collection loop of the orchestrator produces exactly the concatenation of
the successful adapters' posting lists together with the single error entry
`name ++ ": " ++ msg`; each adapter thus contributes either its postings or
one error entry and never both, and the collection itself is a total
function — no adapter failure escapes it. -/
theorem orchestrator_isolates_single_failure
    (preJ postJ : List (String × List Posting)) (name msg : String) :
    collectResults
        (preJ.map okEntry ++ (name, Except.error msg) :: postJ.map okEntry) =
      ((preJ.map Prod.snd).flatten ++ (postJ.map Prod.snd).flatten,
        [name ++ ": " ++ msg]) := by
  induction preJ with
  | nil =>
    simp [collectResults, collectResults_all_ok]
  | cons p rest ih =>
    simp [collectResults, okEntry, ih]

/-- C8 is false as stated: with the completion order "one success, then one
failure", the orchestrator-thread emission sequence is
`[0.5, 0.0, 0.85, 0.90, 0.95]`, which decreases at the failure event; and
the fraction logged on dispatch is 0.0, not 0.2. -/
theorem progress_not_monotone_counterexample :
    ¬ List.Chain' (· ≤ ·) (progressTrace [Except.ok [], Except.error "boom"]) ∧
      dispatchProgress ≠ 2/10 := by
  constructor
  · intro h
    have h1 : progressTrace [Except.ok [], Except.error "boom"]
        = [1/2, 0, 85/100, 90/100, 95/100] := by
      simp [progressTrace, loopEmissions]
      norm_num
    rw [h1] at h
    have h2 := (List.chain'_cons.mp h).1
    norm_num at h2
  · norm_num [dispatchProgress]

/-- In an all-success run the completion-loop emissions stay within
`[0.2, 0.8]` and, followed by the fixed checkpoints, form a non-decreasing
chain. -/
theorem loopEmissions_ok_bounds_chain
    (rest : List (Except String (List Posting))) (k n : Nat)
    (hok : rest.all isOkResult = true) (hkn : k + rest.length ≤ n) :
    List.Chain' (· ≤ ·) (loopEmissions n k rest ++ [85/100, 90/100, 95/100]) ∧
      ∀ q ∈ loopEmissions n k rest, 2/10 ≤ q ∧ q ≤ 8/10 := by
  induction rest generalizing k with
  | nil =>
    refine ⟨?_, by simp [loopEmissions]⟩
    simp only [loopEmissions, List.nil_append]
    norm_num
  | cons o rest ih =>
    obtain ⟨js, rfl⟩ : ∃ js, o = Except.ok js := by
      cases o with
      | ok js => exact ⟨js, rfl⟩
      | error e => rw [List.all_cons] at hok; simp [isOkResult] at hok
    have hok' : rest.all isOkResult = true := by
      rw [List.all_cons, Bool.and_eq_true] at hok
      exact hok.2
    have hlen : k + (rest.length + 1) ≤ n := by simpa [List.length_cons] using hkn
    have hkn' : (k + 1) + rest.length ≤ n := by omega
    have ihr := ih (k + 1) hok' hkn'
    have hn : 0 < n := by omega
    have hnq : (0 : ℚ) < (n : ℚ) := by exact_mod_cast hn
    have hk1n : ((k : ℚ) + 1) ≤ (n : ℚ) := by exact_mod_cast by omega
    have hx0 : (0 : ℚ) ≤ ((k : ℚ) + 1) / (n : ℚ) := by positivity
    have hx1 : ((k : ℚ) + 1) / (n : ℚ) ≤ 1 := by
      rw [div_le_one hnq]; exact hk1n
    have hlow : (2/10 : ℚ) ≤ 2/10 + ((k : ℚ) + 1) / (n : ℚ) * (6/10) := by nlinarith
    have hhigh : (2/10 : ℚ) + ((k : ℚ) + 1) / (n : ℚ) * (6/10) ≤ 8/10 := by nlinarith
    constructor
    · cases rest with
      | nil =>
        simp only [loopEmissions, List.cons_append, List.nil_append]
        push_cast
        refine List.chain'_cons.mpr ⟨by linarith, ?_⟩
        norm_num
      | cons o2 rest2 =>
        obtain ⟨js2, rfl⟩ : ∃ js2, o2 = Except.ok js2 := by
          cases o2 with
          | ok js2 => exact ⟨js2, rfl⟩
          | error e => rw [List.all_cons] at hok'; simp [isOkResult] at hok'
        have hmono : ((k : ℚ) + 1) / (n : ℚ) ≤ ((k : ℚ) + 1 + 1) / (n : ℚ) := by
          gcongr
          linarith
        have htail := ihr.1
        simp only [loopEmissions, List.cons_append] at htail ⊢
        push_cast at htail ⊢
        refine List.chain'_cons.mpr ⟨?_, htail⟩
        nlinarith
    · intro q hq
      simp only [loopEmissions, List.mem_cons] at hq
      rcases hq with rfl | hq'
      · push_cast
        exact ⟨hlow, hhigh⟩
      · exact ihr.2 q hq'

/-- C8 (amended): dispatch and adapter-failure events log the fraction 0.0
(not 0.2), so the emitted sequence is monotone only when every adapter
succeeds; in an all-success run the orchestrator-thread emissions are
monotonically non-decreasing within `[0, 1]`: the i-th of n completions
emits `0.2 + 0.6 * i / n` (reaching 0.8), followed by the checkpoints 0.85
(scoring), 0.90 (deduplication) and 0.95 (filtering). -/
theorem progress_monotone_when_all_adapters_succeed
    (outcomes : List (Except String (List Posting)))
    (h : outcomes.all isOkResult = true) :
    List.Chain' (· ≤ ·) (progressTrace outcomes) ∧
      ∀ q ∈ progressTrace outcomes, 0 ≤ q ∧ q ≤ 1 := by
  have hmain := loopEmissions_ok_bounds_chain outcomes 0 outcomes.length h (by omega)
  unfold progressTrace
  refine ⟨hmain.1, ?_⟩
  intro q hq
  rcases List.mem_append.mp hq with hq' | hq'
  · have hb := hmain.2 q hq'
    exact ⟨by linarith [hb.1], by linarith [hb.2]⟩
  · simp only [List.mem_cons, List.not_mem_nil, or_false] at hq'
    rcases hq' with rfl | rfl | rfl <;> norm_num

/-- Witness for the amended C8 at the concrete all-success run of the four
scrapers. -/
theorem progress_monotone_when_all_adapters_succeed_witness :
    List.Chain' (· ≤ ·)
      (progressTrace [Except.ok [], Except.ok [], Except.ok [], Except.ok []]) :=
  (progress_monotone_when_all_adapters_succeed
    [Except.ok [], Except.ok [], Except.ok [], Except.ok []] (by decide)).1
